import Mathlib

/-!
Shallow embedding of the remindergram reminder bot, translated from
src/bot.py (authoritative implementation) and src/scheduler.py.

Conventions of the embedding:
- Naive-UTC instants (Python `datetime.datetime` without tzinfo) are `Nat`
  seconds; `timedelta(days=1)` is `86400`, `timedelta(weeks=1)` is
  `7 * 86400`, `timedelta(days=30)` is `30 * 86400`.
- The sqlite tables `reminders`, `events`, `responses` are lists of rows
  plus AUTOINCREMENT counters.
- The schema constraint `CHECK(response IN ('did','didnt','snoozed'))` on
  the `responses` table (init_db, src/bot.py) is modelled explicitly: an
  INSERT whose value violates it raises at execute time, which surfaces
  here as `Except.error`.
- sqlite writes are only durable after `conn.commit()`: a code path that
  closes (or abandons) the connection without committing discards its
  uncommitted INSERTs, so such paths leave the modelled tables unchanged.
- APScheduler's job table is a list of `Job`s; `add_job` with an explicit
  `id=` and `replace_existing=True` removes the jobs carrying that id
  before appending the new one (schedule_reminder), while `add_job`
  without an id just appends (scan_and_queue).
-/

namespace Remindergram

/-- Row of the `reminders` table (init_db, src/bot.py lines 46-56). -/
structure Reminder where
  id : Nat
  user_id : Nat
  text : String
  next_trigger_utc : Nat
  is_recurring : Bool
  recur_rule : Option String
  status : String
  created_at : Nat
deriving Repr, DecidableEq

/-- Row of the `events` table (init_db, src/bot.py lines 57-63). -/
structure Event where
  id : Nat
  reminder_id : Nat
  fired_at_utc : Nat
deriving Repr, DecidableEq

/-- Row of the `responses` table (init_db, src/bot.py lines 64-72). -/
structure Response where
  id : Nat
  event_id : Nat
  user_id : Nat
  response : String
  responded_at_utc : Nat
deriving Repr, DecidableEq

/-- The sqlite database: three tables plus AUTOINCREMENT counters. -/
structure DB where
  reminders : List Reminder
  events : List Event
  responses : List Response
  nextEventId : Nat
  nextResponseId : Nat
deriving Repr, DecidableEq

/-- A Telegram message sent by the bot; each inline button carries callback
data `action|event_id|reminder_id` (send_reminder_job, lines 171-177). -/
structure Notification where
  chat_id : Nat
  text : String
  buttons : List (String × Nat × Nat)
deriving Repr, DecidableEq

/-- Observable system state: the database plus the messages sent so far. -/
structure SysState where
  db : DB
  sent : List Notification
deriving Repr, DecidableEq

/-- One APScheduler job.  `jobId = some k` models `add_job(..., id=k)`;
`jobId = none` models an `add_job` call without an explicit id. -/
structure Job where
  jobId : Option String
  runDate : Nat
  reminderId : Nat
deriving Repr, DecidableEq

/-- The job id string `f"reminder_\x7breminder_id\x7d"` used by
schedule_reminder (src/bot.py line 149). -/
def jobKey (rid : Nat) : String := "reminder_" ++ toString rid

/-- Python `str.lower()` restricted to its ASCII action, which is all the
rule strings at issue use; character-by-character lowercasing. -/
def strLower (s : String) : String := String.mk (s.data.map Char.toLower)

/-- compute_next_occurrence (src/bot.py lines 513-527).  Python's
`if not recur_rule` treats both `None` and the empty string as falsy;
rule matching lowercases the stored rule.  Any unrecognized rule falls
through to `return None`. -/
def compute_next_occurrence (last_dt : Nat) : Option String → Option Nat
  | none => none
  | some r =>
    if r = "" then none
    else if strLower r = "daily" then some (last_dt + 86400)
    else if strLower r = "weekly" then some (last_dt + 7 * 86400)
    else if strLower r = "monthly" then some (last_dt + 30 * 86400)
    else none

/-- schedule_reminder (src/bot.py lines 140-151): a trigger time already in
the past returns without adding a job; otherwise `add_job` with
`id=f"reminder_\x7bid\x7d"` and `replace_existing=True` replaces any job
with that id. -/
def schedule_reminder (now : Nat) (jobs : List Job) (r : Reminder) : List Job :=
  if r.next_trigger_utc < now then jobs
  else (jobs.filter fun j => j.jobId != some (jobKey r.id)) ++
    [{ jobId := some (jobKey r.id), runDate := r.next_trigger_utc, reminderId := r.id }]

/-- schedule_all_reminders (src/bot.py lines 128-138): at startup, select
every reminder with `status='pending' AND next_trigger_utc > now` and pass
each row to schedule_reminder. -/
def schedule_all_reminders (now : Nat) (db : DB) (jobs : List Job) : List Job :=
  (db.reminders.filter fun r =>
      r.status == "pending" && decide (now < r.next_trigger_utc)).foldl
    (schedule_reminder now) jobs

/-- scan_and_queue (src/scheduler.py lines 11-20): every tick selects the
reminders with `next_trigger_utc <= now` and `status == "pending"` and
enqueues a dispatch job for each, with no job id and no dedup token. -/
def scan_and_queue (now : Nat) (db : DB) (jobs : List Job) : List Job :=
  jobs ++ (db.reminders.filter fun r =>
      decide (r.next_trigger_utc ≤ now) && r.status == "pending").map
    (fun r => { jobId := none, runDate := now, reminderId := r.id })

/-- The `SELECT * FROM reminders WHERE id=? AND status='pending'` lookup
used by send_reminder_job (src/bot.py line 157). -/
def findReminderPending (db : DB) (rid : Nat) : Option Reminder :=
  db.reminders.find? fun r => r.id == rid && r.status == "pending"

/-- send_reminder_job (src/bot.py lines 153-187): if the reminder is absent
or not pending, return immediately; otherwise INSERT one event row (with
the fresh AUTOINCREMENT id), commit, and send the Telegram message with
the three inline buttons.  Note no reminder field is touched here. -/
def send_reminder_job (now : Nat) (s : SysState) (reminder_id : Nat) : SysState :=
  match findReminderPending s.db reminder_id with
  | none => s
  | some row =>
    let event_id := s.db.nextEventId
    let db' := { s.db with
      events := s.db.events ++ [{ id := event_id, reminder_id := reminder_id, fired_at_utc := now }],
      nextEventId := event_id + 1 }
    { s with
      db := db',
      sent := s.sent ++ [{ chat_id := row.user_id,
                           text := "⏰ Reminder: " ++ row.text,
                           buttons := [("did", event_id, reminder_id),
                                       ("didnt", event_id, reminder_id),
                                       ("snooze", event_id, reminder_id)] }] }

/-- The three values permitted by the schema constraint
`CHECK(response IN ('did', 'didnt', 'snoozed'))` on the responses table. -/
def allowedResponses : List String := ["did", "didnt", "snoozed"]

/-- Whether an INSERT into `responses` with this value passes the schema
CHECK constraint; a value outside the set raises an IntegrityError at
execute time. -/
def responseCheckOk (resp : String) : Bool := allowedResponses.contains resp

/-- The per-user conversational state `context.user_data`: the pair of keys
`snooze_event_id` / `snooze_reminder_id`, always set and popped together. -/
structure UserData where
  snooze : Option (Nat × Nat)
deriving Repr, DecidableEq

/-- The join in button_callback (src/bot.py lines 423-428):
`FROM reminders r JOIN events e ON r.id = e.reminder_id
WHERE e.id=? AND r.id=? AND r.status='pending'`.  The source selects five
columns of the reminder row; here the whole row is returned. -/
def joinEventReminder (db : DB) (event_id reminder_id : Nat) : Option Reminder :=
  match db.events.find? (fun e => e.id == event_id && e.reminder_id == reminder_id) with
  | none => none
  | some _ => db.reminders.find? fun r => r.id == reminder_id && r.status == "pending"

/-- The effect of `UPDATE reminders SET next_trigger_utc=? WHERE id=?`. -/
def updateTrigger (rs : List Reminder) (rid : Nat) (dt : Nat) : List Reminder :=
  rs.map fun r => if r.id == rid then { r with next_trigger_utc := dt } else r

/-- The effect of `UPDATE reminders SET status=? WHERE id=?`. -/
def setStatus (rs : List Reminder) (rid : Nat) (st : String) : List Reminder :=
  rs.map fun r => if r.id == rid then { r with status := st } else r

/-- What button_callback replies with by editing the message. -/
inductive CbResult where
  | notAllowed
  | loggedNext (t : Nat)
  | loggedNoMore
  | loggedCompleted
  | snoozePrompt
  | fallthrough
deriving Repr, DecidableEq

/-- button_callback (src/bot.py lines 407-473), after the callback data has
been split into `action|event_id|reminder_id`.  The source executes
`INSERT INTO responses ... VALUES (?, ?, action, now)` right after the
ownership check; under the schema CHECK constraint that execute raises for
any action outside did/didnt/snoozed, modelled as `Except.error`.  The
insert is only committed (hence only visible in the returned state) on the
did/didnt branches, which call `conn.commit()`; the snooze branch closes
the connection without committing, and an unrecognized action falls off
the end of the function, so on those paths the uncommitted insert is
discarded. -/
def button_callback (now uid : Nat) (action : String) (event_id reminder_id : Nat)
    (ud : UserData) (jobs : List Job) (s : SysState) :
    Except String (SysState × UserData × List Job × CbResult) :=
  match joinEventReminder s.db event_id reminder_id with
  | none => .ok (s, ud, jobs, .notAllowed)
  | some row =>
    if row.user_id != uid then .ok (s, ud, jobs, .notAllowed)
    else if !responseCheckOk action then
      .error "IntegrityError: CHECK constraint failed: responses"
    else
      let resp : Response := { id := s.db.nextResponseId, event_id := event_id,
                               user_id := uid, response := action,
                               responded_at_utc := now }
      if action == "did" || action == "didnt" then
        if row.is_recurring then
          match compute_next_occurrence row.next_trigger_utc row.recur_rule with
          | some next_dt =>
            let db' := { s.db with
              responses := s.db.responses ++ [resp],
              nextResponseId := s.db.nextResponseId + 1,
              reminders := updateTrigger s.db.reminders reminder_id next_dt }
            let s' := { s with db := db' }
            match db'.reminders.find? (fun r => r.id == reminder_id) with
            | some updated_row =>
              .ok (s', ud, schedule_reminder now jobs updated_row, .loggedNext next_dt)
            | none => .ok (s', ud, jobs, .loggedNext next_dt)
          | none =>
            let db' := { s.db with
              responses := s.db.responses ++ [resp],
              nextResponseId := s.db.nextResponseId + 1,
              reminders := setStatus s.db.reminders reminder_id "completed" }
            .ok ({ s with db := db' }, ud, jobs, .loggedNoMore)
        else
          let db' := { s.db with
            responses := s.db.responses ++ [resp],
            nextResponseId := s.db.nextResponseId + 1,
            reminders := setStatus s.db.reminders reminder_id "completed" }
          .ok ({ s with db := db' }, ud, jobs, .loggedCompleted)
      else if action == "snooze" then
        .ok (s, { snooze := some (event_id, reminder_id) }, jobs, .snoozePrompt)
      else
        .ok (s, ud, jobs, .fallthrough)

/-- Result of handle_snooze: whether the handler claimed the message, plus
the new system state, user data, scheduler jobs, and the reply text. -/
structure HSOut where
  handled : Bool
  state : SysState
  ud : UserData
  jobs : List Job
  reply : Option String
deriving Repr, DecidableEq

/-- handle_snooze (src/bot.py lines 475-511).  `parsed` is the UTC instant
the language-model parse of the user's text produced, or `none` when the
parse returned an error / no datetime / an unparseable datetime.  Note the
two user_data keys are popped before parsing, the `responses` insert uses
the literal 'snoozed', and the `UPDATE reminders SET next_trigger_utc=?
WHERE id=?` carries no condition on status or ownership.  A reminder id
absent from the table would make the source crash on `schedule_reminder(None)`
after the commit; the claims only exercise present rows, and that corner is
modelled as skipping the re-scheduling. -/
def handle_snooze (now uid : Nat) (parsed : Option Nat) (ud : UserData)
    (jobs : List Job) (s : SysState) : HSOut :=
  match ud.snooze with
  | none => { handled := false, state := s, ud := ud, jobs := jobs, reply := none }
  | some (event_id, reminder_id) =>
    let ud' : UserData := { snooze := none }
    match parsed with
    | none =>
      { handled := true, state := s, ud := ud', jobs := jobs,
        reply := some "Sorry, I could not parse the snooze time. Please try again." }
    | some dt_utc =>
      let resp : Response := { id := s.db.nextResponseId, event_id := event_id,
                               user_id := uid, response := "snoozed",
                               responded_at_utc := now }
      let db' := { s.db with
        responses := s.db.responses ++ [resp],
        nextResponseId := s.db.nextResponseId + 1,
        reminders := updateTrigger s.db.reminders reminder_id dt_utc }
      let s' := { s with db := db' }
      let jobs' := match db'.reminders.find? (fun r => r.id == reminder_id) with
        | some row => schedule_reminder now jobs row
        | none => jobs
      { handled := true, state := s', ud := ud', jobs := jobs',
        reply := some "Snoozed!" }

/-! Concrete fixtures used by witnesses and counterexamples. -/

/-- A recurring daily reminder, pending, due at instant 1000, owned by user 7. -/
def exReminderRec : Reminder :=
  { id := 1, user_id := 7, text := "water plants", next_trigger_utc := 1000,
    is_recurring := true, recur_rule := some "daily", status := "pending",
    created_at := 500 }

/-- A database holding `exReminderRec` and one fired event (id 5) for it. -/
def exDB : DB :=
  { reminders := [exReminderRec],
    events := [{ id := 5, reminder_id := 1, fired_at_utc := 1000 }],
    responses := [], nextEventId := 6, nextResponseId := 1 }

/-- System state around `exDB`, nothing sent yet. -/
def exState : SysState := { db := exDB, sent := [] }

/-- A non-recurring reminder already completed. -/
def exReminderDone : Reminder :=
  { id := 2, user_id := 7, text := "dentist", next_trigger_utc := 900,
    is_recurring := false, recur_rule := none, status := "completed",
    created_at := 400 }

/-- State whose only reminder is the completed `exReminderDone`, with one
event (id 9) previously fired for it. -/
def exStateDone : SysState :=
  { db := { reminders := [exReminderDone],
            events := [{ id := 9, reminder_id := 2, fired_at_utc := 900 }],
            responses := [], nextEventId := 10, nextResponseId := 1 },
    sent := [] }

/-- A due pending non-recurring reminder (trigger 500). -/
def exDue : Reminder :=
  { id := 3, user_id := 7, text := "stretch", next_trigger_utc := 500,
    is_recurring := false, recur_rule := none, status := "pending",
    created_at := 100 }

/-- State whose only reminder is the due `exDue`; empty event table. -/
def exStateDue : SysState :=
  { db := { reminders := [exDue], events := [], responses := [],
            nextEventId := 1, nextResponseId := 1 }, sent := [] }

/-- A pending reminder due 2 minutes (120 s) before instant 10000. -/
def exPast2m : Reminder :=
  { id := 4, user_id := 7, text := "meds", next_trigger_utc := 9880,
    is_recurring := false, recur_rule := none, status := "pending",
    created_at := 1 }

/-- Database containing only the 2-minutes-overdue pending `exPast2m`. -/
def exDbPast : DB :=
  { reminders := [exPast2m], events := [], responses := [],
    nextEventId := 1, nextResponseId := 1 }

/-- A pending reminder still in the future at instant 100. -/
def exFuture : Reminder :=
  { id := 6, user_id := 7, text := "call Alice", next_trigger_utc := 5000,
    is_recurring := false, recur_rule := none, status := "pending",
    created_at := 1 }

/-- Database containing only the future pending `exFuture`. -/
def exDbFuture : DB :=
  { reminders := [exFuture], events := [], responses := [],
    nextEventId := 1, nextResponseId := 1 }

/-! Helper lemmas shared by several claim proofs. -/

/-- Elements of `updateTrigger rs rid dt` come from `rs` with only the
`next_trigger_utc` field possibly rewritten. -/
theorem updateTrigger_mem_frame (rs : List Reminder) (rid dt : Nat) :
    ∀ r ∈ updateTrigger rs rid dt, ∃ r0 ∈ rs,
      r.id = r0.id ∧ r.user_id = r0.user_id ∧ r.text = r0.text ∧
      r.is_recurring = r0.is_recurring ∧ r.recur_rule = r0.recur_rule ∧
      r.status = r0.status ∧ r.created_at = r0.created_at ∧
      (r0.id = rid → r.next_trigger_utc = dt) ∧
      (r0.id ≠ rid → r.next_trigger_utc = r0.next_trigger_utc) := by
  intro r hr
  rcases List.mem_map.mp hr with ⟨r0, hr0, hmap⟩
  refine ⟨r0, hr0, ?_⟩
  by_cases h : r0.id = rid
  · have hcase : (if r0.id == rid then { r0 with next_trigger_utc := dt } else r0) =
        { r0 with next_trigger_utc := dt } := by simp [h]
    rw [hcase] at hmap
    subst hmap
    exact ⟨rfl, rfl, rfl, rfl, rfl, rfl, rfl, fun _ => rfl, fun hne => absurd h hne⟩
  · have hcase : (if r0.id == rid then { r0 with next_trigger_utc := dt } else r0) =
        r0 := by simp [h]
    rw [hcase] at hmap
    subst hmap
    exact ⟨rfl, rfl, rfl, rfl, rfl, rfl, rfl, fun he => absurd he h, fun _ => rfl⟩

/-! Claim theorems. -/

/-- C3: the Recurrence Calculator is a pure, deterministic, total function:
for every last trigger instant t the rule daily yields t + 24h, weekly
yields t + 7×24h, monthly yields exactly t + 30×24h, and any other rule
value — absent (None) included — is terminal.  (The source lowercases the
rule before matching, so "other" means other after lowercasing.) -/
theorem C3_recurrence_calculator (t : Nat) (r : String)
    (hd : strLower r ≠ "daily") (hw : strLower r ≠ "weekly")
    (hm : strLower r ≠ "monthly") :
    compute_next_occurrence t (some "daily") = some (t + 86400) ∧
    compute_next_occurrence t (some "weekly") = some (t + 7 * 86400) ∧
    compute_next_occurrence t (some "monthly") = some (t + 30 * 86400) ∧
    compute_next_occurrence t none = none ∧
    compute_next_occurrence t (some r) = none := by
  refine ⟨rfl, rfl, rfl, rfl, ?_⟩
  simp only [compute_next_occurrence]
  split_ifs <;> rfl

/-- Witness for C3 at t = 100 with the unrecognized rule "yearly". -/
theorem C3_recurrence_calculator_witness :
    compute_next_occurrence 100 (some "daily") = some (100 + 86400) ∧
    compute_next_occurrence 100 (some "weekly") = some (100 + 7 * 86400) ∧
    compute_next_occurrence 100 (some "monthly") = some (100 + 30 * 86400) ∧
    compute_next_occurrence 100 none = none ∧
    compute_next_occurrence 100 (some "yearly") = none :=
  C3_recurrence_calculator 100 "yearly" (by decide) (by decide) (by decide)

/-- C10: schedule_reminder registers no one-shot timer for a reminder row
whose trigger time is earlier than the current instant — it returns the
job table unchanged, silently, so such a reminder can only fire through
the periodic scan loop. -/
theorem C10_past_trigger_never_scheduled (now : Nat) (jobs : List Job)
    (r : Reminder) (h : r.next_trigger_utc < now) :
    schedule_reminder now jobs r = jobs := by
  unfold schedule_reminder
  simp [h]

/-- Witness for C10: the reminder due at 1000 gets no timer at instant 2000. -/
theorem C10_past_trigger_never_scheduled_witness :
    exReminderRec.next_trigger_utc < 2000 ∧
    schedule_reminder 2000 [] exReminderRec = [] :=
  ⟨by decide, C10_past_trigger_never_scheduled 2000 [] exReminderRec (by decide)⟩

/-- C4: dispatching a reminder that is absent or not pending is a complete
no-op — the returned state is the input state, so no Event row is written,
no notification is sent, and no reminder field changes. -/
theorem C4_stale_dispatch_noop (now : Nat) (s : SysState) (rid : Nat)
    (h : ∀ r ∈ s.db.reminders, r.id = rid → r.status ≠ "pending") :
    send_reminder_job now s rid = s := by
  have hf : findReminderPending s.db rid = none := by
    unfold findReminderPending
    rw [List.find?_eq_none]
    intro r hr
    simp only [Bool.and_eq_true, beq_iff_eq, not_and]
    exact h r hr
  unfold send_reminder_job
  rw [hf]

/-- Witness for C4: dispatching the completed reminder id 2 changes nothing. -/
theorem C4_stale_dispatch_noop_witness :
    (∀ r ∈ exStateDone.db.reminders, r.id = 2 → r.status ≠ "pending") ∧
    send_reminder_job 1000 exStateDone 2 = exStateDone :=
  ⟨by decide, C4_stale_dispatch_noop 1000 exStateDone 2 (by decide)⟩

/-- C7: when the requesting user does not own the reminder behind the
referenced event (including when the event/pending-reminder join finds no
row at all), button_callback answers with the generic denial and returns
the state, user data and job table unchanged — no Response row is
recorded and no reminder field changes. -/
theorem C7_unauthorized_response_rejected (now uid : Nat) (action : String)
    (event_id reminder_id : Nat) (ud : UserData) (jobs : List Job) (s : SysState)
    (h : (joinEventReminder s.db event_id reminder_id).all
      (fun row => row.user_id != uid) = true) :
    button_callback now uid action event_id reminder_id ud jobs s =
      .ok (s, ud, jobs, .notAllowed) := by
  unfold button_callback
  cases hj : joinEventReminder s.db event_id reminder_id with
  | none => rfl
  | some row =>
    rw [hj] at h
    simp only [Option.all_some] at h
    simp [h]

/-- Witness for C7: user 8 pressing Did on user 7's reminder is denied and
nothing changes. -/
theorem C7_unauthorized_response_rejected_witness :
    (joinEventReminder exState.db 5 1).all (fun row => row.user_id != 8) = true ∧
    button_callback 1200 8 "did" 5 1 { snooze := none } [] exState =
      .ok (exState, { snooze := none }, [], .notAllowed) :=
  ⟨rfl, C7_unauthorized_response_rejected 1200 8 "did" 5 1
    { snooze := none } [] exState rfl⟩

/-- C8 (code bug): the Snooze button press carries the action string
"snooze", and button_callback INSERTs it verbatim as the response value;
the schema constraint CHECK(response IN ('did','didnt','snoozed')) rejects
it, so the execute raises an IntegrityError and no Response row is ever
persisted for a snooze request — contradicting the claim that each
processed action yields a persisted row whose value lies in
did/didnt/snoozed. -/
theorem C8_snooze_insert_violates_check :
    responseCheckOk "snooze" = false ∧
    button_callback 1200 7 "snooze" 5 1 { snooze := none } [] exState =
      .error "IntegrityError: CHECK constraint failed: responses" :=
  ⟨rfl, rfl⟩

/-- C9: resolving a snooze rewrites only the next_trigger_utc of the
targeted reminder id; id, user_id, text, is_recurring, recur_rule, status
and created_at of every row are untouched, and the update carries no
precondition on status or ownership — the theorem assumes nothing about
either, so a completed or deleted reminder equally gets its trigger
replaced while its status stays what it was. -/
theorem C9_snooze_updates_only_trigger (now uid dt event_id reminder_id : Nat)
    (ud : UserData) (jobs : List Job) (s : SysState)
    (hud : ud.snooze = some (event_id, reminder_id)) :
    (handle_snooze now uid (some dt) ud jobs s).state.db.reminders =
      updateTrigger s.db.reminders reminder_id dt ∧
    ∀ r ∈ (handle_snooze now uid (some dt) ud jobs s).state.db.reminders,
      ∃ r0 ∈ s.db.reminders,
        r.id = r0.id ∧ r.user_id = r0.user_id ∧ r.text = r0.text ∧
        r.is_recurring = r0.is_recurring ∧ r.recur_rule = r0.recur_rule ∧
        r.status = r0.status ∧ r.created_at = r0.created_at ∧
        (r0.id = reminder_id → r.next_trigger_utc = dt) ∧
        (r0.id ≠ reminder_id → r.next_trigger_utc = r0.next_trigger_utc) := by
  have hrem : (handle_snooze now uid (some dt) ud jobs s).state.db.reminders =
      updateTrigger s.db.reminders reminder_id dt := by
    unfold handle_snooze
    rw [hud]
  refine ⟨hrem, ?_⟩
  rw [hrem]
  exact updateTrigger_mem_frame s.db.reminders reminder_id dt

/-- Witness for C9: snoozing the already-completed reminder id 2 to instant
4242 replaces its trigger while leaving its status "completed". -/
theorem C9_snooze_updates_only_trigger_witness :
    ((handle_snooze 1000 7 (some 4242) { snooze := some (9, 2) } []
        exStateDone).state.db.reminders =
      updateTrigger exStateDone.db.reminders 2 4242 ∧
    ∀ r ∈ (handle_snooze 1000 7 (some 4242) { snooze := some (9, 2) } []
        exStateDone).state.db.reminders,
      ∃ r0 ∈ exStateDone.db.reminders,
        r.id = r0.id ∧ r.user_id = r0.user_id ∧ r.text = r0.text ∧
        r.is_recurring = r0.is_recurring ∧ r.recur_rule = r0.recur_rule ∧
        r.status = r0.status ∧ r.created_at = r0.created_at ∧
        (r0.id = 2 → r.next_trigger_utc = 4242) ∧
        (r0.id ≠ 2 → r.next_trigger_utc = r0.next_trigger_utc)) :=
  C9_snooze_updates_only_trigger 1000 7 4242 9 2 { snooze := some (9, 2) } []
    exStateDone rfl

/-- C6 counterexample: a snooze of 1441 minutes (past the claimed 1–1440
bound) is not rejected: handle_snooze, asked to snooze reminder 1 to
instant now + 1441×60 at now = 10000, replies success, rewrites the
reminder's trigger to that instant and records a 'snoozed' Response —
there is no validation and no re-prompt, and the reminder does not stay
unchanged. -/
theorem C6_cex_1441_minutes_accepted :
    (handle_snooze 10000 7 (some (10000 + 1441 * 60)) { snooze := some (5, 1) }
      [] exState).reply = some "Snoozed!" ∧
    (handle_snooze 10000 7 (some (10000 + 1441 * 60)) { snooze := some (5, 1) }
      [] exState).state.db.reminders =
      [{ exReminderRec with next_trigger_utc := 10000 + 1441 * 60 }] ∧
    (handle_snooze 10000 7 (some (10000 + 1441 * 60)) { snooze := some (5, 1) }
      [] exState).state.db.responses =
      [{ id := 1, event_id := 5, user_id := 7, response := "snoozed",
         responded_at_utc := 10000 }] :=
  ⟨rfl, rfl, rfl⟩

/-- C6 (amended): snooze resolution performs no range validation: whatever
instant the language-model parse returns — now + 1441 minutes included —
is accepted as the reminder's new next_trigger_utc; rejection with a
re-prompt happens only when the text fails to parse to an instant, and
then the state (hence every reminder) is returned unchanged. -/
theorem C6_snooze_unvalidated (now uid dt event_id reminder_id : Nat)
    (ud : UserData) (jobs : List Job) (s : SysState)
    (hud : ud.snooze = some (event_id, reminder_id)) :
    ((handle_snooze now uid (some dt) ud jobs s).state.db.reminders =
       updateTrigger s.db.reminders reminder_id dt ∧
     (handle_snooze now uid (some dt) ud jobs s).handled = true) ∧
    ((handle_snooze now uid none ud jobs s).state = s ∧
     (handle_snooze now uid none ud jobs s).reply =
       some "Sorry, I could not parse the snooze time. Please try again.") := by
  unfold handle_snooze
  rw [hud]
  exact ⟨⟨rfl, rfl⟩, rfl, rfl⟩

/-- Witness for C6 (amended) at the 1441-minute instant. -/
theorem C6_snooze_unvalidated_witness :
    (({ snooze := some (5, 1) } : UserData).snooze = some (5, 1)) ∧
    (((handle_snooze 10000 7 (some (10000 + 1441 * 60)) { snooze := some (5, 1) }
         [] exState).state.db.reminders =
       updateTrigger exState.db.reminders 1 (10000 + 1441 * 60) ∧
      (handle_snooze 10000 7 (some (10000 + 1441 * 60)) { snooze := some (5, 1) }
         [] exState).handled = true) ∧
     ((handle_snooze 10000 7 none { snooze := some (5, 1) } [] exState).state =
        exState ∧
      (handle_snooze 10000 7 none { snooze := some (5, 1) } [] exState).reply =
        some "Sorry, I could not parse the snooze time. Please try again.")) :=
  ⟨rfl, C6_snooze_unvalidated 10000 7 (10000 + 1441 * 60) 5 1
    { snooze := some (5, 1) } [] exState rfl⟩

/-- C1 counterexample: dispatching the recurring pending reminder 1 (rule
daily, trigger 1000) leaves its row — trigger_instant included — exactly
as it was, and a did response afterwards is what advances the trigger to
1000 + 86400: both halves of the claim (dispatch advances, response never
does) fail on the code. -/
theorem C1_cex_dispatch_does_not_advance :
    (send_reminder_job 1000 exState 1).db.reminders = [exReminderRec] ∧
    exReminderRec.is_recurring = true ∧
    exReminderRec.status = "pending" ∧
    exReminderRec.next_trigger_utc = 1000 ∧
    (∃ out, button_callback 1100 7 "did" 5 1 { snooze := none } [] exState =
        .ok out ∧
      out.1.db.reminders = [{ exReminderRec with next_trigger_utc := 87400 }]) :=
  ⟨rfl, rfl, rfl, rfl, _, rfl, rfl⟩

/-- C1 (amended): recurrence advancement happens exactly once, at response
time, never at dispatch time: send_reminder_job leaves every reminder row
unchanged, while an authorized did/didnt response on a pending reminder
advances a recurring one's next_trigger_utc from the stored trigger via
the Recurrence Calculator (rewriting only that field, so status stays
pending), marks it completed when the rule is terminal, and marks a
non-recurring one completed. -/
theorem C1_advancement_at_response_time (now uid : Nat) (action : String)
    (event_id reminder_id : Nat) (row : Reminder) (ud : UserData)
    (jobs : List Job) (s : SysState)
    (hjoin : joinEventReminder s.db event_id reminder_id = some row)
    (huid : row.user_id = uid)
    (ha : action = "did" ∨ action = "didnt") :
    (∀ t s2 rid2, (send_reminder_job t s2 rid2).db.reminders = s2.db.reminders) ∧
    (∀ next_dt, row.is_recurring = true →
      compute_next_occurrence row.next_trigger_utc row.recur_rule = some next_dt →
      ∃ out, button_callback now uid action event_id reminder_id ud jobs s =
          .ok out ∧
        out.1.db.reminders = updateTrigger s.db.reminders reminder_id next_dt ∧
        out.2.2.2 = CbResult.loggedNext next_dt) ∧
    (row.is_recurring = true →
      compute_next_occurrence row.next_trigger_utc row.recur_rule = none →
      ∃ out, button_callback now uid action event_id reminder_id ud jobs s =
          .ok out ∧
        out.1.db.reminders = setStatus s.db.reminders reminder_id "completed" ∧
        out.2.2.2 = CbResult.loggedNoMore) ∧
    (row.is_recurring = false →
      ∃ out, button_callback now uid action event_id reminder_id ud jobs s =
          .ok out ∧
        out.1.db.reminders = setStatus s.db.reminders reminder_id "completed" ∧
        out.2.2.2 = CbResult.loggedCompleted) := by
  have hdispatch : ∀ t s2 rid2,
      (send_reminder_job t s2 rid2).db.reminders = s2.db.reminders := by
    intro t s2 rid2
    unfold send_reminder_job
    cases findReminderPending s2.db rid2 <;> rfl
  have hbne : (row.user_id != uid) = false := by simp [huid]
  have hcheck : responseCheckOk action = true := by
    rcases ha with rfl | rfl <;> rfl
  have hdd : (action == "did" || action == "didnt") = true := by
    rcases ha with rfl | rfl <;> rfl
  refine ⟨hdispatch, ?_, ?_, ?_⟩
  · intro next_dt hrec hnext
    simp only [button_callback, hjoin, hbne, hcheck, hdd, hrec, hnext,
      Bool.not_true, Bool.false_eq_true, if_false, if_true]
    cases (updateTrigger s.db.reminders reminder_id next_dt).find?
        (fun r => r.id == reminder_id) with
    | none => exact ⟨_, rfl, rfl, rfl⟩
    | some updated_row => exact ⟨_, rfl, rfl, rfl⟩
  · intro hrec hnext
    simp only [button_callback, hjoin, hbne, hcheck, hdd, hrec, hnext,
      Bool.not_true, Bool.false_eq_true, if_false, if_true]
    exact ⟨_, rfl, rfl, rfl⟩
  · intro hrec
    simp only [button_callback, hjoin, hbne, hcheck, hdd, hrec,
      Bool.not_true, Bool.false_eq_true, if_false, if_true]
    exact ⟨_, rfl, rfl, rfl⟩

/-- Witness for C1 (amended): the did response on the daily reminder 1
advances its trigger from 1000 to 87400 and reports the next instant. -/
theorem C1_advancement_at_response_time_witness :
    ∃ out, button_callback 1100 7 "did" 5 1 { snooze := none } [] exState =
        .ok out ∧
      out.1.db.reminders = updateTrigger exState.db.reminders 1 87400 ∧
      out.2.2.2 = CbResult.loggedNext 87400 :=
  (C1_advancement_at_response_time 1100 7 "did" 5 1 exReminderRec
    { snooze := none } [] exState rfl rfl (Or.inl rfl)).2.1 87400 rfl rfl

/-- C2 counterexample: reminder 3 is pending with trigger_instant 500, due
at instant 1000.  Two dispatch attempts both go through — each writes its
own Event row while the reminder row (hence its trigger_instant) never
changes — so the pair (id 3, trigger 500) receives two Events, not at
most one; and two scan ticks at the same instant each enqueue a dispatch
job for it, with no dispatch token to skip the second. -/
theorem C2_cex_double_dispatch_two_events :
    (send_reminder_job 1000 (send_reminder_job 1000 exStateDue 3) 3).db.events =
      [{ id := 1, reminder_id := 3, fired_at_utc := 1000 },
       { id := 2, reminder_id := 3, fired_at_utc := 1000 }] ∧
    (send_reminder_job 1000 (send_reminder_job 1000 exStateDue 3) 3).db.reminders =
      [exDue] ∧
    exDue.next_trigger_utc = 500 ∧
    scan_and_queue 1000 exStateDue.db (scan_and_queue 1000 exStateDue.db []) =
      [{ jobId := none, runDate := 1000, reminderId := 3 },
       { jobId := none, runDate := 1000, reminderId := 3 }] :=
  ⟨rfl, rfl, rfl, rfl⟩

/-- C2 (amended): dispatch carries no per-(reminder id, trigger instant)
idempotency token: every dispatch attempt that finds the reminder pending
unconditionally appends a fresh Event row and leaves every reminder row —
trigger_instant included — unchanged, so each repeated attempt (for
example from overlapping scan ticks, which re-enqueue every still-due
reminder with no dedup key) writes its own Event for the same
(id, trigger_instant) pair. -/
theorem C2_dispatch_not_deduplicated (now : Nat) (s : SysState) (rid : Nat)
    (row : Reminder) (h : findReminderPending s.db rid = some row) :
    (send_reminder_job now s rid).db.events = s.db.events ++
      [{ id := s.db.nextEventId, reminder_id := rid, fired_at_utc := now }] ∧
    (send_reminder_job now s rid).db.reminders = s.db.reminders := by
  unfold send_reminder_job
  rw [h]
  exact ⟨rfl, rfl⟩

/-- Witness for C2 (amended) on the due pending reminder 3. -/
theorem C2_dispatch_not_deduplicated_witness :
    findReminderPending exStateDue.db 3 = some exDue ∧
    ((send_reminder_job 1000 exStateDue 3).db.events = exStateDue.db.events ++
       [{ id := 1, reminder_id := 3, fired_at_utc := 1000 }] ∧
     (send_reminder_job 1000 exStateDue 3).db.reminders =
       exStateDue.db.reminders) :=
  ⟨rfl, C2_dispatch_not_deduplicated 1000 exStateDue 3 exDue rfl⟩

/-- Jobs carrying a given job id survive schedule_reminder: the past-trigger
branch returns the table unchanged, and the add branch only removes jobs
whose id equals the one it re-adds. -/
theorem schedule_reminder_keeps_key (now : Nat) (jobs : List Job) (r : Reminder)
    (k : String) (h : ∃ j ∈ jobs, j.jobId = some k) :
    ∃ j ∈ schedule_reminder now jobs r, j.jobId = some k := by
  unfold schedule_reminder
  split_ifs with hpast
  · exact h
  · by_cases hk : k = jobKey r.id
    · subst hk
      exact ⟨_, List.mem_append_right _ (List.mem_singleton_self _), rfl⟩
    · rcases h with ⟨j, hj, hjk⟩
      refine ⟨j, List.mem_append_left _ ?_, hjk⟩
      rw [List.mem_filter]
      refine ⟨hj, ?_⟩
      rw [hjk]
      simp [hk]

/-- A not-yet-due reminder handed to schedule_reminder gets a job with its
key into the table. -/
theorem schedule_reminder_adds_key (now : Nat) (jobs : List Job) (r : Reminder)
    (h : ¬ r.next_trigger_utc < now) :
    ∃ j ∈ schedule_reminder now jobs r, j.jobId = some (jobKey r.id) := by
  unfold schedule_reminder
  rw [if_neg h]
  exact ⟨_, List.mem_append_right _ (List.mem_singleton_self _), rfl⟩

/-- Folding schedule_reminder over a row list preserves present job keys. -/
theorem foldl_schedule_keeps_key (now : Nat) (L : List Reminder) :
    ∀ jobs k, (∃ j ∈ jobs, j.jobId = some k) →
      ∃ j ∈ L.foldl (schedule_reminder now) jobs, j.jobId = some k := by
  induction L with
  | nil => exact fun jobs k h => h
  | cons a tl ih =>
    intro jobs k h
    exact ih _ k (schedule_reminder_keeps_key now jobs a k h)

/-- Folding schedule_reminder over a list of not-yet-due rows puts a job
with each row's key into the table. -/
theorem foldl_schedule_mem_key (now : Nat) (L : List Reminder) :
    ∀ jobs r, r ∈ L → (∀ x ∈ L, ¬ x.next_trigger_utc < now) →
      ∃ j ∈ L.foldl (schedule_reminder now) jobs, j.jobId = some (jobKey r.id) := by
  induction L with
  | nil => intro _ r hr _; cases hr
  | cons a tl ih =>
    intro jobs r hr hall
    rcases List.mem_cons.mp hr with rfl | hmem
    · exact foldl_schedule_keeps_key now tl _ (jobKey r.id)
        (schedule_reminder_adds_key now jobs r (hall r (List.mem_cons_self _ _)))
    · exact ih _ r hmem fun x hx => hall x (List.mem_cons_of_mem a hx)

/-- C5 counterexample: the Recovery Rebuilder has no grace window.  A
pending reminder due 2 minutes in the past at startup (trigger 9880, now
10000) is claimed to get a one-shot timer; in fact the startup query
selects only rows with next_trigger_utc strictly greater than now, so no
timer at all is registered for it — and even schedule_reminder alone
drops it as already past. -/
theorem C5_cex_overdue_within_grace_gets_no_timer :
    exPast2m.status = "pending" ∧
    exPast2m.next_trigger_utc = 10000 - 120 ∧
    schedule_all_reminders 10000 exDbPast [] = [] ∧
    schedule_reminder 10000 [] exPast2m = [] :=
  ⟨rfl, rfl, rfl, rfl⟩

/-- C5 (amended): on process start, a one-shot timer is registered exactly
for the pending reminders whose trigger_instant is strictly greater than
now: every such reminder gets a job keyed by its id, and when every
pending reminder is already due (trigger ≤ now) — whether 2 or 10 minutes
past — the job table is returned unchanged, those rows being left for
the scan loop. -/
theorem C5_rebuild_future_only (now : Nat) (db : DB) (jobs : List Job) :
    (∀ r ∈ db.reminders, r.status = "pending" → now < r.next_trigger_utc →
      ∃ j ∈ schedule_all_reminders now db jobs, j.jobId = some (jobKey r.id)) ∧
    ((∀ r ∈ db.reminders, r.status = "pending" → r.next_trigger_utc ≤ now) →
      schedule_all_reminders now db jobs = jobs) := by
  constructor
  · intro r hr hst htr
    unfold schedule_all_reminders
    apply foldl_schedule_mem_key
    · rw [List.mem_filter]
      exact ⟨hr, by simp [hst, htr]⟩
    · intro x hx
      rcases List.mem_filter.mp hx with ⟨_, hpx⟩
      simp only [Bool.and_eq_true, beq_iff_eq, decide_eq_true_eq] at hpx
      omega
  · intro hall
    unfold schedule_all_reminders
    have hnil : (db.reminders.filter fun r =>
        r.status == "pending" && decide (now < r.next_trigger_utc)) = [] := by
      rw [List.filter_eq_nil_iff]
      intro a ha
      simp only [Bool.and_eq_true, beq_iff_eq, decide_eq_true_eq, not_and]
      intro hst
      exact not_lt.mpr (hall a ha hst)
    rw [hnil]
    rfl

/-- Witness for C5 (amended): the future pending reminder 6 gets its job at
instant 100, and the store holding only the overdue reminder 4 yields an
unchanged (empty) job table at instant 10000. -/
theorem C5_rebuild_future_only_witness :
    (∃ j ∈ schedule_all_reminders 100 exDbFuture [], j.jobId = some (jobKey 6)) ∧
    schedule_all_reminders 10000 exDbPast [] = [] :=
  ⟨(C5_rebuild_future_only 100 exDbFuture []).1 exFuture (by decide) rfl (by decide),
   (C5_rebuild_future_only 10000 exDbPast []).2 (by decide)⟩

end Remindergram
